import Mathlib

/-!
Verification of the FanzCEO/SandeshWAP authentication subsystem
(projects/proj_fastapi): a shallow embedding of the JWT token manager,
Redis-backed revocation store, sliding-window rate limiter, password
manager, login / password-reset flows and the WebSocket connection
manager, followed by theorems about the embedded definitions.

Conventions of the embedding:
* JSON claim values are modelled by `CVal` (strings, numbers, booleans);
  a JWT payload is an association list with Python-dict semantics
  (`cget` / `cset` / `cupdate`).
* Timestamps are integers (seconds).  The Python code uses float POSIX
  timestamps; no claim under study depends on sub-second fractions.
* A signed JWT is modelled symbolically as its payload together with the
  signing key and algorithm; `jwtDecode` succeeds exactly when key and
  algorithm match (signature validity).
* The Redis store is modelled per purpose: the token blacklist is a
  keyed store whose keys are the tokens themselves (the source keys it
  by the raw token string, which is in bijection with the token), and a
  rate-limit window is the sorted set stored under its single key.
  Store operations mirror app/core/redis.py, including the behaviour on
  an uninitialized or failing client.
-/

namespace SandeshWAP

/-- A JSON claim value: string, integer (timestamps), or boolean. -/
inductive CVal where
  | s (v : String)
  | n (v : Int)
  | b (v : Bool)
deriving DecidableEq, Repr

/-- A JWT payload / Python dict: an insertion-ordered association list. -/
abbrev Claims := List (String × CVal)

/-- Python dict lookup `d.get(k)`: first (unique) binding for `k`. -/
def cget : Claims → String → Option CVal
  | [], _ => none
  | p :: ps, k => if p.1 == k then some p.2 else cget ps k

/-- Python dict item assignment `d[k] = v`: replaces the existing binding
in place, otherwise appends (insertion order preserved, as in CPython). -/
def cset : Claims → String → CVal → Claims
  | [], k, v => [(k, v)]
  | p :: ps, k, v => if p.1 == k then (k, v) :: ps else p :: cset ps k v

/-- Python `d.update(u)`: item assignment for every entry of `u` in order. -/
def cupdate (d u : Claims) : Claims :=
  u.foldl (fun acc p => cset acc p.1 p.2) d

/-- The configuration fields of app/core/config.py consumed by the
authentication subsystem (expiry deltas, signing key and algorithm,
cache TTL, the email-verification feature flag). -/
structure Settings where
  secret_key : String
  algorithm : String
  access_token_expire_minutes : Int
  refresh_token_expire_days : Int
  password_reset_token_expire_hours : Int
  cache_ttl : Int
  feature_email_verification : Bool
deriving DecidableEq, Repr

/-- A signed JWT, modelled symbolically: payload plus signing key and
algorithm (the compact serialization is kept abstract). -/
structure Jwt where
  claims : Claims
  key : String
  alg : String
deriving DecidableEq, Repr

/-- `jwt.encode(claims, key, algorithm)`. -/
def jwtEncode (c : Claims) (k a : String) : Jwt := ⟨c, k, a⟩

/-- `jwt.decode(token, key, algorithms)`: returns the payload when the
signature verifies (same key) and the algorithm is accepted; otherwise
raises `JWTError`, modelled as `none` (the caller catches it). -/
def jwtDecode (t : Jwt) (k : String) (algs : List String) : Option Claims :=
  if t.key == k && algs.contains t.alg then some t.claims else none

/-- `JWTTokenManager.create_access_token` (auth.py:52-77) at the default
expiry: copies `data`, then sets `exp = now + access_token_expire_minutes`
(a timedelta in minutes), `iat = now`, `type = "access"`. -/
def create_access_token (data : Claims) (st : Settings) (now : Int) : Jwt :=
  jwtEncode
    (cupdate data
      [("exp", .n (now + 60 * st.access_token_expire_minutes)),
       ("iat", .n now),
       ("type", .s "access")])
    st.secret_key st.algorithm

/-- `JWTTokenManager.create_refresh_token` (auth.py:79-104) at the default
expiry (`refresh_token_expire_days`, a timedelta in days). -/
def create_refresh_token (data : Claims) (st : Settings) (now : Int) : Jwt :=
  jwtEncode
    (cupdate data
      [("exp", .n (now + 86400 * st.refresh_token_expire_days)),
       ("iat", .n now),
       ("type", .s "refresh")])
    st.secret_key st.algorithm

/-- `JWTTokenManager.create_password_reset_token` (auth.py:106-130). -/
def create_password_reset_token (email : String) (st : Settings) (now : Int) : Jwt :=
  jwtEncode
    [("email", .s email),
     ("exp", .n (now + 3600 * st.password_reset_token_expire_hours)),
     ("iat", .n now),
     ("type", .s "password_reset")]
    st.secret_key st.algorithm

/-- `JWTTokenManager.verify_token` (auth.py:132-152): decode (signature
and algorithm), then require an `exp` claim, then require it not to be in
the past; returns the payload only when all checks pass.  A non-numeric
`exp` cannot be produced by this module and is likewise rejected. -/
def verify_token (t : Jwt) (st : Settings) (now : Int) : Option Claims :=
  match jwtDecode t st.secret_key [st.algorithm] with
  | none => none
  | some payload =>
    match cget payload "exp" with
    | some (.n exp) => if exp < now then none else some payload
    | _ => none

/-- `create_token_pair` (auth.py:325-339): the returned dict. -/
structure TokenPair where
  access_token : Jwt
  refresh_token : Jwt
  token_type : String
  expires_in : Int
deriving DecidableEq, Repr

/-- `create_token_pair(user_id, additional_data)` (auth.py:325-339):
the access token carries `sub` plus the caller-supplied claims; the
refresh token is built from `{sub, type: "refresh"}` only. -/
def create_token_pair (user_id : Int) (additional_data : Claims)
    (st : Settings) (now : Int) : TokenPair :=
  let data := cupdate [("sub", .s (toString user_id))] additional_data
  { access_token := create_access_token data st now
    refresh_token :=
      create_refresh_token
        [("sub", .s (toString user_id)), ("type", .s "refresh")] st now
    token_type := "bearer"
    expires_in := st.access_token_expire_minutes * 60 }

/-- Health of the Redis client as seen by RedisManager (redis.py):
`uninitialized` models `self.redis_client is None`, `failing` models a
client whose every call raises (store unreachable). -/
inductive RHealth where
  | connected
  | uninitialized
  | failing
deriving DecidableEq, Repr

/-- A keyed region of the Redis store: entries are (key, value, ttl).
The blacklist region is keyed by the token itself, since the source key
"blacklist:token:" followed by the raw token string is in bijection with
the raw token. -/
structure RStore (κ : Type) where
  health : RHealth
  entries : List (κ × String × Int)
deriving DecidableEq, Repr

/-- `RedisManager.set` (redis.py:88-105): returns false when the client
is missing or the call raises; otherwise stores the value with
`ex = expire or settings.cache_ttl` (a zero or absent expire falls back
to the configured cache TTL, per Python truthiness). -/
def redis_set [BEq κ] (s : RStore κ) (k : κ) (v : String)
    (expire : Option Int) (cache_ttl : Int) : Bool × RStore κ :=
  match s.health with
  | .uninitialized => (false, s)
  | .failing => (false, s)
  | .connected =>
    let ex := match expire with
      | some e => if e == 0 then cache_ttl else e
      | none => cache_ttl
    (true,
     { s with entries := s.entries.filter (fun p => !(p.1 == k)) ++ [(k, v, ex)] })

/-- `RedisManager.exists` (redis.py:118-126): false when the client is
missing, false when the call raises (the exception is caught and logged),
otherwise key presence. -/
def redis_exists [BEq κ] (s : RStore κ) (k : κ) : Bool :=
  match s.health with
  | .uninitialized => false
  | .failing => false
  | .connected => s.entries.any (fun p => p.1 == k)

/-- `JWTTokenManager.revoke_token` (auth.py:165-187): verify the token
(signature and expiry), require a truthy `exp`, compute
`ttl = exp - now`; a non-positive ttl is reported as success without
touching the store; otherwise the blacklist marker "revoked" is written
under the raw-token key with that ttl. -/
def revoke_token (t : Jwt) (st : Settings) (now : Int)
    (store : RStore Jwt) : Bool × RStore Jwt :=
  match verify_token t st now with
  | none => (false, store)
  | some payload =>
    match cget payload "exp" with
    | some (.n exp) =>
      if exp == 0 then (false, store)
      else
        let ttl := exp - now
        if ttl ≤ 0 then (true, store)
        else redis_set store t "revoked" (some ttl) st.cache_ttl
    | _ => (false, store)

/-- `JWTTokenManager.is_token_revoked` (auth.py:189-196): blacklist-key
presence via `redis_manager.exists`; any exception is caught and the
function returns false. -/
def is_token_revoked (t : Jwt) (store : RStore Jwt) : Bool :=
  redis_exists store t

/-- Python `int(x)` on a claim value: parses a string, passes an integer
through, and raises (modelled `none`) on `None` or other shapes. -/
def py_int : Option CVal → Option Int
  | some (.s v) => v.toInt?
  | some (.n v) => some v
  | _ => none

/-- A claim value read with a string default, `payload.get(k, "")`. -/
def py_str_or (v : Option CVal) (dflt : String) : String :=
  match v with
  | some (.s s) => s
  | _ => dflt

/-- `get_current_user_token` (deps.py:31-67): revocation check first
(`verify_token_not_revoked`, auth.py:319-322), then signature/expiry
verification, then the access-type gate; failures become 401 responses
with the shown detail. -/
def get_current_user_token (t : Jwt) (store : RStore Jwt)
    (st : Settings) (now : Int) : Except (Nat × String) Claims :=
  if is_token_revoked t store then
    .error (401, "Token has been revoked")
  else
    match verify_token t st now with
    | none => .error (401, "Invalid token")
    | some payload =>
      if cget payload "type" ≠ some (.s "access") then
        .error (401, "Invalid token type")
      else .ok payload

/-- A stored password credential: either the Argon2 hash of a password
(the hash is represented by the password it was derived from, since the
claims only depend on match / mismatch) or a malformed stored string. -/
inductive Cred where
  | hashOf (password : String)
  | malformed (raw : String)
deriving DecidableEq, Repr

/-- What `self.hasher.verify(hash, plain)` does (argon2-cffi): returns on
a match, raises `VerifyMismatchError` on a mismatch, and raises another
exception (for example `InvalidHashError`) on a malformed stored hash;
`HashingError` covers internal hashing failures. -/
inductive Argon2Outcome where
  | verified
  | mismatch
  | hashingError (msg : String)
  | unexpectedError (msg : String)
deriving DecidableEq, Repr

/-- The outcome of `self.hasher.verify` for a plaintext and a credential. -/
def argon2_verify (plain : String) (cred : Cred) : Argon2Outcome :=
  match cred with
  | .hashOf pw => if plain == pw then .verified else .mismatch
  | .malformed raw => .unexpectedError raw

/-- `PasswordManager.verify_password` (security.py:36-48): the try/except
ladder maps a match to true and every raised exception — mismatch,
`HashingError`, and the final broad `except Exception` — to false.  The
`Except` codomain records that the translated function could have
propagated an exception; it never does. -/
def catch_verify : Argon2Outcome → Except String Bool
  | .verified => .ok true
  | .mismatch => .ok false
  | .hashingError _ => .ok false
  | .unexpectedError _ => .ok false

/-- `verify_password(plain, hashed)` composed with the hasher. -/
def verify_password (plain : String) (cred : Cred) : Except String Bool :=
  catch_verify (argon2_verify plain cred)

/-- The user record (app/models/user.py) as consumed by the flows under
study; the password hash is a `Cred` (see below). -/
structure User where
  id : Int
  email : String
  username : String
  hashed_password : Cred
  is_active : Bool
  email_verified : Bool
  is_superuser : Bool

/-- `authenticate_websocket` (websocket.py:155-199): close (modelled
`none`) without a token, on failed verification, on a non-access type,
or when reading `sub` raises; otherwise a mock user built from the
payload. -/
def authenticate_websocket (token : Option Jwt) (st : Settings)
    (now : Int) : Option (Int × String × String) :=
  match token with
  | none => none
  | some t =>
    match verify_token t st now with
    | none => none
    | some payload =>
      if cget payload "type" ≠ some (.s "access") then none
      else
        match py_int (cget payload "sub") with
        | none => none
        | some uid =>
          some (uid, py_str_or (cget payload "email") "",
                py_str_or (cget payload "username") "")

/-- Result of the token-refresh endpoint (api/auth.py:232-285). -/
inductive RefreshResult where
  | err (status : Nat) (detail : String)
  | ok (tokens : TokenPair)
deriving DecidableEq, Repr

/-- `refresh_token` endpoint (api/auth.py:232-285): verify, require
`type == "refresh"`, resolve the user by the `sub` claim (a failing
`int()` is caught by the broad handler as "Token refresh failed"),
require an active user, then mint a new pair with the identity claims. -/
def refresh_token_flow (t : Jwt) (st : Settings) (now : Int)
    (get_user : Int → Option User) : RefreshResult :=
  match verify_token t st now with
  | none => .err 401 "Invalid refresh token"
  | some payload =>
    if cget payload "type" ≠ some (.s "refresh") then
      .err 401 "Invalid token type"
    else
      match py_int (cget payload "sub") with
      | none => .err 401 "Token refresh failed"
      | some uid =>
        match get_user uid with
        | none => .err 401 "User not found or inactive"
        | some u =>
          if !u.is_active then .err 401 "User not found or inactive"
          else
            .ok (create_token_pair u.id
              [("email", .s u.email), ("username", .s u.username),
               ("is_superuser", .b u.is_superuser)] st now)

/-- Result of the login endpoint as seen at the response boundary. -/
inductive LoginResult where
  | err (status : Nat) (detail : String)
  | ok (tokens : TokenPair)
deriving DecidableEq, Repr

/-- `login` endpoint (api/auth.py:132-210), response boundary: resolve by
email, then by username; no user gives 401 "Invalid credentials"; a
password mismatch gives the identical 401 "Invalid credentials"; an
inactive user (password already verified) gives 401 "Account is
deactivated"; a missing required email verification gives 401; otherwise
a token pair is minted with the identity claims.  A raised exception in
password verification would reach the broad handler (500 "Login failed");
session creation and the last-login update carry no claim and are
omitted. -/
def login (by_email by_username : Option User) (password : String)
    (st : Settings) (now : Int) : LoginResult :=
  let user? := match by_email with
    | some u => some u
    | none => by_username
  match user? with
  | none => .err 401 "Invalid credentials"
  | some u =>
    match verify_password password u.hashed_password with
    | .error _ => .err 500 "Login failed"
    | .ok verified =>
      if !verified then .err 401 "Invalid credentials"
      else if !u.is_active then .err 401 "Account is deactivated"
      else if st.feature_email_verification && !u.email_verified then
        .err 401 "Email not verified"
      else
        .ok (create_token_pair u.id
          [("email", .s u.email), ("username", .s u.username),
           ("is_superuser", .b u.is_superuser)] st now)

/-- `request_password_reset` (api/auth.py:323-349): a reset token is
minted only for an existing active user (second component), but the HTTP
response (first component: status, message) is the same fixed success
body on every path, including the exception path. -/
def request_password_reset (user? : Option User) (st : Settings)
    (now : Int) : (Nat × String) × Option Jwt :=
  let issued := match user? with
    | some u =>
      if u.is_active then some (create_password_reset_token u.email st now)
      else none
    | none => none
  ((200, "If the email exists, a password reset link has been sent"), issued)

/-- `ZREMRANGEBYSCORE key 0 (now - window)` on the rate-limit sorted set
(redis.py:299): each member is a request timestamp and its own score. -/
def zremrange_old (entries : List Int) (now window : Int) : List Int :=
  entries.filter (fun m => !(decide (0 ≤ m) && decide (m ≤ now - window)))

/-- `ZADD key now now` (redis.py:306): the member IS the timestamp, so a
timestamp already present is not added again (its score is rewritten to
the same value). -/
def zadd_now (entries : List Int) (now : Int) : List Int :=
  if entries.contains now then entries else entries ++ [now]

/-- The atomic Lua script of `RedisManager.rate_limit` (redis.py:292-312)
acting on the sorted set stored under the rate key: purge old entries,
count, admit and record if under the limit.  Returns
((allowed, remaining, reset_time), new sorted set); the key-level EXPIRE
only bounds storage and never changes a decision, since entries older
than the window are purged on every call. -/
def rate_limit_script (entries : List Int) (limit window now : Int) :
    (Bool × Int × Int) × List Int :=
  let purged := zremrange_old entries now window
  let current : Int := purged.length
  if current < limit then
    ((true, limit - current - 1, now + window), zadd_now purged now)
  else
    ((false, 0, now + window), purged)

/-- `RedisManager.rate_limit` (redis.py:274-329): with a missing client,
or when anything raises, the request is allowed (fail open, returning
(true, limit, 0)); otherwise the Lua script decides. -/
def rate_limit (health : RHealth) (entries : List Int)
    (limit window now : Int) : (Bool × Int × Int) × List Int :=
  match health with
  | .connected => rate_limit_script entries limit window now
  | _ => ((true, limit, 0), entries)

/-- A sequence of rate-limited requests at the given clock readings, over
a connected store: the list of allowed flags and the final sorted set. -/
def rate_limit_run (limit window : Int) :
    List Int → List Int → List Bool × List Int
  | entries, [] => ([], entries)
  | entries, t :: ts =>
    let r := rate_limit_script entries limit window t
    let rest := rate_limit_run limit window r.2 ts
    (r.1.1 :: rest.1, rest.2)

/-- `ConnectionManager` state (websocket.py:22-30): active connections by
user id, and per-connection metadata; a connection is identified by a
number, the metadata kept is its owning user (connect and activity times
carry no claim and are omitted). -/
structure CMState where
  active_connections : List (Int × List Nat)
  connection_metadata : List (Nat × Int)
deriving DecidableEq, Repr

/-- The empty registry. -/
def CMState.empty : CMState := ⟨[], []⟩

/-- Lookup of the connection list of a user. -/
def cm_conns (st : CMState) (uid : Int) : Option (List Nat) :=
  (st.active_connections.find? (fun p => p.1 == uid)).map (fun p => p.2)

/-- Replace the connection list of a user (the dict entry), preserving
insertion order, appending a fresh entry when absent. -/
def cm_set_conns : List (Int × List Nat) → Int → List Nat → List (Int × List Nat)
  | [], uid, l => [(uid, l)]
  | p :: ps, uid, l =>
    if p.1 == uid then (uid, l) :: ps else p :: cm_set_conns ps uid l

/-- `get_user_connection_count` (websocket.py:142-144). -/
def get_user_connection_count (st : CMState) (uid : Int) : Nat :=
  match cm_conns st uid with
  | none => 0
  | some l => l.length

/-- `broadcast_to_user` (websocket.py:102-126): deliver to every
connection of the user except the optionally excluded one (truthiness of
the exclusion plus equality, as in the source); in the model every send
succeeds, so the failed-send cleanup path is not exercised and the state
is unchanged.  Returns the deliveries (connection, message type). -/
def broadcast_to_user (st : CMState) (uid : Int) (msg : String)
    (exclude : Option Nat) : List (Nat × String) :=
  match cm_conns st uid with
  | none => []
  | some l =>
    (l.filter (fun ws => !(exclude == some ws))).map (fun ws => (ws, msg))

/-- `ConnectionManager.connect` (websocket.py:32-56): append the socket
to the list of its user (creating the entry), record metadata, then
notify the other connections of the same user.  Returns the new state
and the notification deliveries. -/
def cm_connect (st : CMState) (ws : Nat) (uid : Int) :
    CMState × List (Nat × String) :=
  let conns := match cm_conns st uid with
    | none => [ws]
    | some l => l ++ [ws]
  let st2 : CMState :=
    { active_connections := cm_set_conns st.active_connections uid conns
      connection_metadata :=
        st.connection_metadata.filter (fun p => !(p.1 == ws)) ++ [(ws, uid)] }
  (st2, broadcast_to_user st2 uid "connection_established" (some ws))

/-- `ConnectionManager.disconnect` (websocket.py:58-87): a socket without
metadata is ignored; otherwise it is filtered out of the list of its
user, the user entry is deleted when the list becomes empty, the
metadata is deleted, and any remaining connections of the user are
notified. -/
def cm_disconnect (st : CMState) (ws : Nat) :
    CMState × List (Nat × String) :=
  match (st.connection_metadata.find? (fun p => p.1 == ws)).map (fun p => p.2) with
  | none => (st, [])
  | some uid =>
    let active := match cm_conns st uid with
      | none => st.active_connections
      | some l =>
        let rest := l.filter (fun w => !(w == ws))
        if rest.isEmpty then
          st.active_connections.filter (fun p => !(p.1 == uid))
        else cm_set_conns st.active_connections uid rest
    let st2 : CMState :=
      { active_connections := active
        connection_metadata :=
          st.connection_metadata.filter (fun p => !(p.1 == ws)) }
    if (st2.active_connections.find? (fun p => p.1 == uid)).isSome then
      (st2, broadcast_to_user st2 uid "connection_closed" none)
    else (st2, [])

/-! Basic lookup lemmas about the dict model. -/

theorem cget_cset_self (c : Claims) (k : String) (v : CVal) :
    cget (cset c k v) k = some v := by
  induction c with
  | nil => simp [cget, cset]
  | cons p ps ih =>
    by_cases h : p.1 == k
    · simp [cget, cset, h]
    · simp [cget, cset, h, ih]

theorem cget_cset_other (c : Claims) (k k2 : String) (v : CVal)
    (h : k2 ≠ k) : cget (cset c k v) k2 = cget c k2 := by
  have h2 : k ≠ k2 := fun hc => h hc.symm
  induction c with
  | nil => simp [cget, cset, beq_iff_eq, h, h2]
  | cons p ps ih =>
    by_cases hp : p.1 = k
    · have hne : p.1 ≠ k2 := by rw [hp]; exact h2
      simp [cget, cset, beq_iff_eq, hp, hne, h, h2]
    · by_cases hq : p.1 = k2
      · simp [cget, cset, beq_iff_eq, hp, hq, h, h2]
      · simp [cget, cset, beq_iff_eq, hp, hq, ih, h, h2]

/-- Whether an Except value is a success. -/
def except_is_ok : Except ε α → Bool
  | .ok _ => true
  | .error _ => false

/-! Further lookup lemmas for payloads built by the token creators
(payload = data updated with the exp / iat / type triple). -/

theorem cget_update3_type (d : Claims) (e i ty : CVal) :
    cget (cupdate d [("exp", e), ("iat", i), ("type", ty)]) "type" = some ty :=
  cget_cset_self (cset (cset d "exp" e) "iat" i) "type" ty

theorem cget_update3_exp (d : Claims) (e i ty : CVal) :
    cget (cupdate d [("exp", e), ("iat", i), ("type", ty)]) "exp" = some e := by
  have h1 := cget_cset_other (cset (cset d "exp" e) "iat" i) "type" "exp" ty
    (by decide)
  have h2 := cget_cset_other (cset d "exp" e) "iat" "exp" i (by decide)
  have h3 := cget_cset_self d "exp" e
  calc cget (cupdate d [("exp", e), ("iat", i), ("type", ty)]) "exp"
      = cget (cset (cset d "exp" e) "iat" i) "exp" := h1
    _ = cget (cset d "exp" e) "exp" := h2
    _ = some e := h3

/-- An unexpired access token verifies to its payload. -/
theorem verify_create_access (data : Claims) (st : Settings) (t tv : Int)
    (h : tv ≤ t + 60 * st.access_token_expire_minutes) :
    verify_token (create_access_token data st t) st tv =
      some (cupdate data
        [("exp", CVal.n (t + 60 * st.access_token_expire_minutes)),
         ("iat", CVal.n t), ("type", CVal.s "access")]) := by
  have hexp := cget_update3_exp data
    (CVal.n (t + 60 * st.access_token_expire_minutes)) (CVal.n t)
    (CVal.s "access")
  simp [verify_token, create_access_token, jwtDecode, jwtEncode,
        List.contains, List.elem, hexp, not_lt.mpr h]

/-- An unexpired refresh token verifies to its payload. -/
theorem verify_create_refresh (data : Claims) (st : Settings) (t tv : Int)
    (h : tv ≤ t + 86400 * st.refresh_token_expire_days) :
    verify_token (create_refresh_token data st t) st tv =
      some (cupdate data
        [("exp", CVal.n (t + 86400 * st.refresh_token_expire_days)),
         ("iat", CVal.n t), ("type", CVal.s "refresh")]) := by
  have hexp := cget_update3_exp data
    (CVal.n (t + 86400 * st.refresh_token_expire_days)) (CVal.n t)
    (CVal.s "refresh")
  simp [verify_token, create_refresh_token, jwtDecode, jwtEncode,
        List.contains, List.elem, hexp, not_lt.mpr h]

/-! Concrete fixtures used by witnesses and counterexamples. -/

/-- A concrete configuration: 30-minute access tokens, 7-day refresh
tokens, 1-hour reset tokens, one-hour cache TTL, verification off. -/
def st0 : Settings :=
  { secret_key := "secret", algorithm := "HS256"
    access_token_expire_minutes := 30, refresh_token_expire_days := 7
    password_reset_token_expire_hours := 1, cache_ttl := 3600
    feature_email_verification := false }

/-- A concrete access token issued at time 100 (so exp = 1900). -/
def tok0 : Jwt := create_access_token [("sub", CVal.s "1")] st0 100

/-- A blacklist store whose client raises on every call, while the
underlying data does contain a revocation marker for tok0. -/
def store_failing : RStore Jwt := ⟨RHealth.failing, [(tok0, "revoked", 500)]⟩

/-- A blacklist store whose client was never initialized. -/
def store_uninit : RStore Jwt := ⟨RHealth.uninitialized, []⟩

/-- A healthy, empty blacklist store. -/
def store_ok : RStore Jwt := ⟨RHealth.connected, []⟩

/-- A token whose exp (5) is already in the past at time 10. -/
def tok_expired : Jwt :=
  jwtEncode
    [("sub", CVal.s "1"), ("exp", CVal.n 5), ("iat", CVal.n 0),
     ("type", CVal.s "access")]
    st0.secret_key st0.algorithm

/-! ## C9 -/

/-- C9: a token whose decoded claim set lacks an exp claim is rejected by
verify_token (it returns no claim set), even when the signature is valid
(the token is signed with the configured key and algorithm); such a token
is never treated as non-expiring. -/
theorem C9_missing_exp_invalid (c : Claims) (st : Settings) (now : Int)
    (h : cget c "exp" = none) :
    verify_token (jwtEncode c st.secret_key st.algorithm) st now = none := by
  simp [verify_token, jwtDecode, jwtEncode, h]

/-- C9 witness: a concrete signed token without exp is rejected. -/
theorem C9_missing_exp_invalid_witness :
    verify_token (jwtEncode [("sub", CVal.s "1")] st0.secret_key st0.algorithm)
      st0 5 = none :=
  C9_missing_exp_invalid [("sub", CVal.s "1")] st0 5 rfl

/-! ## C7 -/

/-- C7: the password-reset request returns the identical response body
and status for any two lookup results (existing active user, inactive
user, or no user at all); the response is the fixed generic success
message and does not depend on whether the email exists. -/
theorem C7_reset_request_uniform (u1 u2 : Option User) (st : Settings)
    (now : Int) :
    (request_password_reset u1 st now).1 = (request_password_reset u2 st now).1 ∧
    (request_password_reset u1 st now).1 =
      (200, "If the email exists, a password reset link has been sent") :=
  ⟨rfl, rfl⟩

/-- C7 witness: an existing active user versus no user at all. -/
theorem C7_reset_request_uniform_witness :
    (request_password_reset
      (some ⟨1, "a@b.c", "alice", Cred.hashOf "Pw1", true, true, false⟩)
      st0 50).1 =
    (request_password_reset none st0 50).1 ∧
    (request_password_reset
      (some ⟨1, "a@b.c", "alice", Cred.hashOf "Pw1", true, true, false⟩)
      st0 50).1 =
      (200, "If the email exists, a password reset link has been sent") :=
  C7_reset_request_uniform
    (some ⟨1, "a@b.c", "alice", Cred.hashOf "Pw1", true, true, false⟩)
    none st0 50

/-! ## C2 -/

/-- C2 counterexample: with limit 3 and window 60, four requests in rapid
succession — all four within the same clock second (now = 1000) — are
ALL allowed: the Lua script uses the timestamp itself as the sorted-set
member, so same-second requests collapse into a single entry and the
count never reaches the limit.  The claimed [true, true, true, false]
does not occur. -/
theorem C2_counterexample :
    (rate_limit_run 3 60 [] [1000, 1000, 1000, 1000]).1 =
      [true, true, true, true] ∧
    (rate_limit_run 3 60 [] [1000, 1000, 1000, 1000]).1 ≠
      [true, true, true, false] := by
  exact ⟨by decide, by decide⟩

/-- C2 (amended): with limit 3 and window 60, four rapid requests from
the same identifier yield allowed = [true, true, true, false] provided
the four requests carry distinct clock seconds (here 1000..1003); after
the window has elapsed (now = 1063 ≥ last request + window) a subsequent
request is allowed again.  When all four requests fall within the same
clock second they are all allowed, because the sorted-set member is the
timestamp itself. -/
theorem C2_sliding_window :
    (rate_limit_run 3 60 [] [1000, 1001, 1002, 1003]).1 =
      [true, true, true, false] ∧
    (rate_limit_run 3 60 [] [1000, 1001, 1002, 1003]).2 =
      [1000, 1001, 1002] ∧
    ((rate_limit_script [1000, 1001, 1002] 3 60 1063).1).1 = true ∧
    (rate_limit_run 3 60 [] [1000, 1000, 1000, 1000]).1 =
      [true, true, true, true] := by
  exact ⟨by decide, by decide, by decide, by decide⟩

/-! ## C10 -/

/-- C10: for every user id and every additional_data, the refresh token
claim set is exactly sub (the user id as a string), type = "refresh",
exp and iat — the caller-supplied identity claims (email, username,
is_superuser) never appear in it — while those identity claims are
embedded in the access token. -/
theorem C10_refresh_claims_exact (uid : Int) (additional : Claims)
    (st : Settings) (now : Int) :
    (create_token_pair uid additional st now).refresh_token.claims =
      [("sub", CVal.s (toString uid)), ("type", CVal.s "refresh"),
       ("exp", CVal.n (now + 86400 * st.refresh_token_expire_days)),
       ("iat", CVal.n now)] ∧
    cget (create_token_pair uid additional st now).refresh_token.claims
      "email" = none ∧
    cget (create_token_pair uid additional st now).refresh_token.claims
      "username" = none ∧
    cget (create_token_pair uid additional st now).refresh_token.claims
      "is_superuser" = none ∧
    (∀ e un su,
      (create_token_pair uid
        [("email", CVal.s e), ("username", CVal.s un),
         ("is_superuser", CVal.b su)] st now).access_token.claims =
      [("sub", CVal.s (toString uid)), ("email", CVal.s e),
       ("username", CVal.s un), ("is_superuser", CVal.b su),
       ("exp", CVal.n (now + 60 * st.access_token_expire_minutes)),
       ("iat", CVal.n now), ("type", CVal.s "access")]) :=
  ⟨rfl, rfl, rfl, rfl, fun _ _ _ => rfl⟩

/-- C10 witness: the claim-set shapes at uid 5, one extra claim, the
fixture configuration and time 100. -/
theorem C10_refresh_claims_exact_witness :
    (create_token_pair 5 [("email", CVal.s "a@b.c")] st0 100).refresh_token.claims =
      [("sub", CVal.s "5"), ("type", CVal.s "refresh"),
       ("exp", CVal.n 604900), ("iat", CVal.n 100)] ∧
    cget (create_token_pair 5 [("email", CVal.s "a@b.c")] st0 100).refresh_token.claims
      "email" = none ∧
    (create_token_pair 5
      [("email", CVal.s "e"), ("username", CVal.s "u"),
       ("is_superuser", CVal.b false)] st0 100).access_token.claims =
      [("sub", CVal.s "5"), ("email", CVal.s "e"), ("username", CVal.s "u"),
       ("is_superuser", CVal.b false), ("exp", CVal.n 1900),
       ("iat", CVal.n 100), ("type", CVal.s "access")] := by
  have h := C10_refresh_claims_exact 5 [("email", CVal.s "a@b.c")] st0 100
  exact ⟨h.1, h.2.1, h.2.2.2.2 "e" "u" false⟩

/-! ## C6 -/

/-- C6 counterexample: an unexpected internal failure (a malformed stored
hash, on which the argon2 backend raises something other than a mismatch)
is converted into the boolean return value false instead of being
propagated — contradicting the claim that only mismatches become false
and unexpected failures are raised. -/
theorem C6_counterexample :
    verify_password "correct horse" (Cred.malformed "not-an-argon2-hash") =
      Except.ok false := rfl

/-- C6 (amended): verify_password returns false (and does not raise) on a
mismatch, true on a match, and it also returns false — never a raised
error — on every internal failure, including unexpected ones; for every
input the result is a boolean, never a propagated exception. -/
theorem C6_verify_password_total (plain pw raw : String) (cred : Cred)
    (h : plain ≠ pw) :
    verify_password plain (Cred.hashOf pw) = Except.ok false ∧
    verify_password plain (Cred.hashOf plain) = Except.ok true ∧
    verify_password plain (Cred.malformed raw) = Except.ok false ∧
    ∃ b, verify_password plain cred = Except.ok b := by
  refine ⟨?_, ?_, rfl, ?_⟩
  · simp [verify_password, argon2_verify, catch_verify, beq_iff_eq, h]
  · simp [verify_password, argon2_verify, catch_verify]
  · cases cred with
    | hashOf q =>
      by_cases hq : plain = q
      · exact ⟨true, by simp [verify_password, argon2_verify, catch_verify, beq_iff_eq, hq]⟩
      · exact ⟨false, by simp [verify_password, argon2_verify, catch_verify, beq_iff_eq, hq]⟩
    | malformed r => exact ⟨false, rfl⟩

/-- C6 witness: the amended statement at concrete inputs. -/
theorem C6_verify_password_total_witness :
    verify_password "a" (Cred.hashOf "b") = Except.ok false ∧
    verify_password "a" (Cred.hashOf "a") = Except.ok true ∧
    verify_password "a" (Cred.malformed "junk") = Except.ok false ∧
    ∃ b, verify_password "a" (Cred.hashOf "b") = Except.ok b :=
  C6_verify_password_total "a" "b" "junk" (Cred.hashOf "b") (by decide)

/-! ## C1 -/

/-- C1 counterexample: with the key-value store unreachable (every client
call raises) and a revocation marker for tok0 actually present in the
underlying data, the blacklist check reports the token as NOT revoked and
the authenticated dependency lets the request through with a 200-path
success — no server-side error surfaces.  This contradicts the claimed
fail-closed behaviour. -/
theorem C1_counterexample :
    is_token_revoked tok0 store_failing = false ∧
    get_current_user_token tok0 store_failing st0 100 =
      Except.ok
        [("sub", CVal.s "1"), ("exp", CVal.n 1900),
         ("iat", CVal.n 100), ("type", CVal.s "access")] :=
  ⟨rfl, rfl⟩

/-- C1 (amended): when the key-value store operation fails during a
blacklist check (client uninitialized or raising), the check fails OPEN:
is_token_revoked returns false, so the token is silently treated as
unrevoked, and an otherwise valid access token passes the authenticated
dependency — no server-side error surfaces to the caller. -/
theorem C1_revocation_fails_open (t : Jwt) (store : RStore Jwt)
    (st : Settings) (now : Int) (p : Claims)
    (hs : store.health ≠ RHealth.connected)
    (hv : verify_token t st now = some p)
    (ht : cget p "type" = some (CVal.s "access")) :
    is_token_revoked t store = false ∧
    get_current_user_token t store st now = Except.ok p := by
  have hrev : is_token_revoked t store = false := by
    cases hh : store.health with
    | connected => exact absurd hh hs
    | uninitialized => simp [is_token_revoked, redis_exists, hh]
    | failing => simp [is_token_revoked, redis_exists, hh]
  refine ⟨hrev, ?_⟩
  simp [get_current_user_token, hrev, hv, ht]

/-- C1 witness: the amended statement at tok0 over the uninitialized
store. -/
theorem C1_revocation_fails_open_witness :
    is_token_revoked tok0 store_uninit = false ∧
    get_current_user_token tok0 store_uninit st0 100 =
      Except.ok
        [("sub", CVal.s "1"), ("exp", CVal.n 1900),
         ("iat", CVal.n 100), ("type", CVal.s "access")] :=
  C1_revocation_fails_open tok0 store_uninit st0 100
    [("sub", CVal.s "1"), ("exp", CVal.n 1900),
     ("iat", CVal.n 100), ("type", CVal.s "access")]
    (by decide) rfl rfl

/-! ## C4 -/

/-- C4 counterexample: tok_expired has exp = 5, so at now = 10 its
remaining TTL is -5 ≤ 0; the claim says revoke is a no-op success
(true), but revoke_token returns false — verify_token rejects the
expired token before the TTL branch is ever reached. -/
theorem C4_counterexample :
    revoke_token tok_expired st0 10 store_ok = (false, store_ok) := rfl

/-- C4 (amended): for a token signed with the configured key whose exp
claim is e, taken at a positive current time now: when e < now (remaining
TTL negative) revoke_token returns false without touching the store,
because verification rejects the already-expired token first; when
e = now (remaining TTL exactly zero, still passing verification) revoke
is a no-op that reports success; when now < e and the store is healthy,
revoke inserts the blacklist marker "revoked" keyed by the raw token
with TTL equal to the remaining lifetime e - now and reports success. -/
theorem C4_revoke_ttl (t : Jwt) (c : Claims) (st : Settings)
    (now e : Int) (store : RStore Jwt)
    (hdec : jwtDecode t st.secret_key [st.algorithm] = some c)
    (hexp : cget c "exp" = some (CVal.n e))
    (hnow : 0 < now) :
    (e < now → revoke_token t st now store = (false, store)) ∧
    (e = now → revoke_token t st now store = (true, store)) ∧
    (now < e → store.health = RHealth.connected →
      revoke_token t st now store =
        (true,
         { store with entries :=
            store.entries.filter (fun p => !(p.1 == t)) ++
              [(t, "revoked", e - now)] })) := by
  refine ⟨?_, ?_, ?_⟩
  · intro hlt
    simp [revoke_token, verify_token, hdec, hexp, hlt]
  · intro heq
    have hz : ¬ e = 0 := by omega
    have hz2 : ¬ now = 0 := by omega
    have hnl : ¬ e < now := by omega
    simp [revoke_token, verify_token, hdec, hexp, hnl, hz, hz2, heq]
  · intro hgt hhealth
    have hz : ¬ e = 0 := by omega
    have hnl : ¬ e < now := by omega
    have hpos : ¬ e - now ≤ 0 := by omega
    have hzt : ¬ e - now = 0 := by omega
    simp [revoke_token, verify_token, redis_set, hdec, hexp, hnl, hz,
          hpos, hzt, hhealth]

/-- C4 witness: the amended statement at tok0 (exp = 1900) over the
healthy store at now = 100: the marker is inserted with TTL 1800. -/
theorem C4_revoke_ttl_witness :
    revoke_token tok0 st0 100 store_ok =
      (true,
       { store_ok with entries :=
          store_ok.entries.filter (fun p => !(p.1 == tok0)) ++
            [(tok0, "revoked", 1800)] }) :=
  (C4_revoke_ttl tok0
    [("sub", CVal.s "1"), ("exp", CVal.n 1900),
     ("iat", CVal.n 100), ("type", CVal.s "access")]
    st0 100 1900 store_ok rfl rfl (by decide)).2.2 (by decide) rfl

/-! ## C5 -/

/-- C5: logging in as an inactive user with the correct password yields
the 401 detail "Account is deactivated" (referencing deactivation);
logging in with a wrong password — whether the user is active or not —
yields the generic 401 "Invalid credentials", which is literally the
same message returned when the email/username resolves to no user. -/
theorem C5_login_messages (u : User) (pw q : String)
    (by_username : Option User) (st : Settings) (now : Int) :
    (u.hashed_password = Cred.hashOf pw → u.is_active = false →
      login (some u) by_username pw st now =
        LoginResult.err 401 "Account is deactivated") ∧
    (u.hashed_password = Cred.hashOf q → pw ≠ q →
      login (some u) by_username pw st now =
        LoginResult.err 401 "Invalid credentials") ∧
    login none none pw st now = LoginResult.err 401 "Invalid credentials" := by
  refine ⟨?_, ?_, rfl⟩
  · intro hcred hact
    simp [login, verify_password, argon2_verify, catch_verify, hcred, hact]
  · intro hcred hne
    simp [login, verify_password, argon2_verify, catch_verify, hcred,
          beq_iff_eq, hne]

/-- C5 witness: concrete inactive and active users.  The inactive user
with the stored password "Pw1" gets the deactivation message; an active
user presenting "Pw1" against the stored "Other" gets the generic
message; the no-user case produces the identical generic message. -/
theorem C5_login_messages_witness :
    login (some ⟨1, "a@b.c", "alice", Cred.hashOf "Pw1", false, true, false⟩)
      none "Pw1" st0 50 = LoginResult.err 401 "Account is deactivated" ∧
    login (some ⟨2, "d@e.f", "bob", Cred.hashOf "Other", true, true, false⟩)
      none "Pw1" st0 50 = LoginResult.err 401 "Invalid credentials" ∧
    login none none "Pw1" st0 50 = LoginResult.err 401 "Invalid credentials" :=
  ⟨(C5_login_messages
      ⟨1, "a@b.c", "alice", Cred.hashOf "Pw1", false, true, false⟩
      "Pw1" "Pw1" none st0 50).1 rfl rfl,
   (C5_login_messages
      ⟨2, "d@e.f", "bob", Cred.hashOf "Other", true, true, false⟩
      "Pw1" "Other" none st0 50).2.1 rfl (by decide),
   (C5_login_messages
      ⟨2, "d@e.f", "bob", Cred.hashOf "Other", true, true, false⟩
      "Pw1" "Other" none st0 50).2.2⟩

/-! ## C3 -/

/-- C3: for every (access, refresh) pair from create_token_pair, while
unexpired, verifying the access token yields a payload with type
"access" and verifying the refresh token yields type "refresh"; the
refresh flow rejects an access token ("Invalid token type"), and both
places that require an access token — the authenticated HTTP dependency
and the WebSocket authentication — reject a refresh token. -/
theorem C3_token_type_separation (uid : Int) (additional : Claims)
    (st : Settings) (t tv : Int) (store : RStore Jwt)
    (get_user : Int → Option User)
    (h1 : tv ≤ t + 60 * st.access_token_expire_minutes)
    (h2 : tv ≤ t + 86400 * st.refresh_token_expire_days) :
    (∃ p, verify_token (create_token_pair uid additional st t).access_token
        st tv = some p ∧ cget p "type" = some (CVal.s "access")) ∧
    (∃ p, verify_token (create_token_pair uid additional st t).refresh_token
        st tv = some p ∧ cget p "type" = some (CVal.s "refresh")) ∧
    refresh_token_flow (create_token_pair uid additional st t).access_token
      st tv get_user = RefreshResult.err 401 "Invalid token type" ∧
    except_is_ok (get_current_user_token
      (create_token_pair uid additional st t).refresh_token store st tv) =
        false ∧
    authenticate_websocket
      (some (create_token_pair uid additional st t).refresh_token) st tv =
        none := by
  have hvA := verify_create_access
    (cupdate [("sub", CVal.s (toString uid))] additional) st t tv h1
  have htA := cget_update3_type
    (cupdate [("sub", CVal.s (toString uid))] additional)
    (CVal.n (t + 60 * st.access_token_expire_minutes)) (CVal.n t)
    (CVal.s "access")
  have hvR := verify_create_refresh
    [("sub", CVal.s (toString uid)), ("type", CVal.s "refresh")] st t tv h2
  have htR := cget_update3_type
    [("sub", CVal.s (toString uid)), ("type", CVal.s "refresh")]
    (CVal.n (t + 86400 * st.refresh_token_expire_days)) (CVal.n t)
    (CVal.s "refresh")
  refine ⟨⟨_, hvA, htA⟩, ⟨_, hvR, htR⟩, ?_, ?_, ?_⟩
  · simp only [create_token_pair]
    simp [refresh_token_flow, hvA, htA]
  · cases hb : is_token_revoked
      (create_token_pair uid additional st t).refresh_token store
    · simp only [create_token_pair] at hb ⊢
      simp [get_current_user_token, hb, hvR, htR, except_is_ok]
    · simp [get_current_user_token, hb, except_is_ok]
  · simp only [create_token_pair]
    simp [authenticate_websocket, hvR, htR]

/-- C3 witness: the statement at uid 1, one extra identity claim, issue
and verification both at time 100, the healthy store and an empty user
lookup. -/
theorem C3_token_type_separation_witness :
    (∃ p, verify_token
        (create_token_pair 1 [("email", CVal.s "a@b.c")] st0 100).access_token
        st0 100 = some p ∧ cget p "type" = some (CVal.s "access")) ∧
    (∃ p, verify_token
        (create_token_pair 1 [("email", CVal.s "a@b.c")] st0 100).refresh_token
        st0 100 = some p ∧ cget p "type" = some (CVal.s "refresh")) ∧
    refresh_token_flow
      (create_token_pair 1 [("email", CVal.s "a@b.c")] st0 100).access_token
      st0 100 (fun _ => none) = RefreshResult.err 401 "Invalid token type" ∧
    except_is_ok (get_current_user_token
      (create_token_pair 1 [("email", CVal.s "a@b.c")] st0 100).refresh_token
      store_ok st0 100) = false ∧
    authenticate_websocket
      (some (create_token_pair 1 [("email", CVal.s "a@b.c")] st0 100).refresh_token)
      st0 100 = none :=
  C3_token_type_separation 1 [("email", CVal.s "a@b.c")] st0 100 100
    store_ok (fun _ => none) (by decide) (by decide)

/-! ## C8 -/

/-- C8: after connecting two distinct sockets c1 and c2 for the same
user, broadcast_to_user delivers a message to both, and to only the
other one when one is excluded; disconnecting one socket decreases the
connection count of the user by exactly one (2 to 1) while the user
entry stays in the registry, and disconnecting the second brings the
count to 0 and removes the user entry — the entry is removed exactly
when the count reaches zero. -/
theorem C8_connection_manager (uid : Int) (c1 c2 : Nat) (m : String)
    (h : c1 ≠ c2) :
    broadcast_to_user
      (cm_connect (cm_connect CMState.empty c1 uid).1 c2 uid).1 uid m none =
        [(c1, m), (c2, m)] ∧
    broadcast_to_user
      (cm_connect (cm_connect CMState.empty c1 uid).1 c2 uid).1 uid m
        (some c1) = [(c2, m)] ∧
    get_user_connection_count
      (cm_disconnect
        (cm_connect (cm_connect CMState.empty c1 uid).1 c2 uid).1 c1).1 uid =
        1 ∧
    cm_conns
      (cm_disconnect
        (cm_connect (cm_connect CMState.empty c1 uid).1 c2 uid).1 c1).1 uid =
        some [c2] ∧
    get_user_connection_count
      (cm_disconnect
        (cm_disconnect
          (cm_connect (cm_connect CMState.empty c1 uid).1 c2 uid).1 c1).1
        c2).1 uid = 0 ∧
    cm_conns
      (cm_disconnect
        (cm_disconnect
          (cm_connect (cm_connect CMState.empty c1 uid).1 c2 uid).1 c1).1
        c2).1 uid = none := by
  have e12 : (c1 == c2) = false := by
    simp [beq_iff_eq, h]
  have e21 : (c2 == c1) = false := by
    simp [beq_iff_eq, Ne.symm h]
  have hst2 : (cm_connect (cm_connect CMState.empty c1 uid).1 c2 uid).1 =
      ⟨[(uid, [c1, c2])], [(c1, uid), (c2, uid)]⟩ := by
    simp [cm_connect, cm_conns, cm_set_conns, CMState.empty, List.find?, e12]
  have hd1 : (cm_disconnect
      (⟨[(uid, [c1, c2])], [(c1, uid), (c2, uid)]⟩ : CMState) c1).1 =
      ⟨[(uid, [c2])], [(c2, uid)]⟩ := by
    simp [cm_disconnect, cm_conns, cm_set_conns, List.find?, List.isEmpty,
          e12, e21]
  have hd2 : (cm_disconnect (⟨[(uid, [c2])], [(c2, uid)]⟩ : CMState) c2).1 =
      ⟨[], []⟩ := by
    simp [cm_disconnect, cm_conns, cm_set_conns, List.find?, List.isEmpty]
  rw [hst2, hd1, hd2]
  refine ⟨?_, ?_, ?_, ?_, rfl, rfl⟩
  · simp [broadcast_to_user, cm_conns, List.find?]
  · simp [broadcast_to_user, cm_conns, List.find?, e12]
  · simp [get_user_connection_count, cm_conns, List.find?]
  · simp [cm_conns, List.find?]

/-- C8 witness: the scenario at user 7 with sockets 0 and 1 and the
message "hello". -/
theorem C8_connection_manager_witness :
    broadcast_to_user
      (cm_connect (cm_connect CMState.empty 0 7).1 1 7).1 7 "hello" none =
        [(0, "hello"), (1, "hello")] ∧
    broadcast_to_user
      (cm_connect (cm_connect CMState.empty 0 7).1 1 7).1 7 "hello"
        (some 0) = [(1, "hello")] ∧
    get_user_connection_count
      (cm_disconnect
        (cm_connect (cm_connect CMState.empty 0 7).1 1 7).1 0).1 7 = 1 ∧
    cm_conns
      (cm_disconnect
        (cm_connect (cm_connect CMState.empty 0 7).1 1 7).1 0).1 7 =
        some [1] ∧
    get_user_connection_count
      (cm_disconnect
        (cm_disconnect
          (cm_connect (cm_connect CMState.empty 0 7).1 1 7).1 0).1 1).1 7 =
        0 ∧
    cm_conns
      (cm_disconnect
        (cm_disconnect
          (cm_connect (cm_connect CMState.empty 0 7).1 1 7).1 0).1 1).1 7 =
        none :=
  C8_connection_manager 7 0 1 "hello" (by decide)

end SandeshWAP
